import Mathlib

/-!
Verification of the FSND capstone backend (`src/app.py`) against its
specification. The repository ships a Flask application whose route handlers
and error handlers live in `app.py`; the authorization core it imports
(`auth.auth.requires_auth` / `AuthError`) and the ORM models (`models.py`)
are not part of the sources, so those components are modelled faithfully
from the specification text (each such definition says so in its doc
comment). Everything taken from `app.py` is embedded directly from that
file.
-/

deriving instance DecidableEq for Except

namespace Capstone

/-- Modelled from the spec (§7 taxonomy): the machine-readable codes of the
authorization-failure taxonomy. The code of `auth.auth` is absent from the
sources; the spec's table lists exactly these nine conditions. -/
inductive AuthCode where
  | missing_header
  | malformed_header
  | invalid_header
  | unknown_key
  | invalid_signature
  | token_expired
  | invalid_claims
  | unauthorized
  | forbidden
deriving DecidableEq, Repr

/-- Modelled from the spec (§7): an authorization-domain failure carries a
machine-readable code, a human description and an HTTP status. Mirrors the
`AuthError` exception consumed by `app.py`'s `auth_error` handler, which
reads `error.status_code` and `error.error['description']`. -/
structure AuthError where
  code : AuthCode
  description : String
  status_code : Nat
deriving DecidableEq, Repr

/-- Modelled from the spec (§3 TokenHeader): decoded structural JWT header
carrying the signing key identifier (`kid`, possibly absent) and the
algorithm name. -/
structure TokenHeader where
  kid : Option String
  alg : String
deriving DecidableEq, Repr

/-- Modelled from the spec (§3 VerifiedClaims): decoded payload with the
standard identity claims and an optional permissions collection. -/
structure Claims where
  iss : String
  aud : String
  exp : Nat
  permissions : Option (List String)
deriving DecidableEq, Repr

/-- Modelled from the spec (§6 token format): a structural three-part JWT —
header, payload and signature (the signature abstracted as a number). -/
structure Jwt where
  header : TokenHeader
  payload : Claims
  sig : Nat
deriving DecidableEq, Repr

/-- Modelled from the spec (§3 SigningKeySet): one published signing key,
a key identifier plus public key material (abstracted as a number). -/
structure SigningKey where
  kid : String
  material : Nat
deriving DecidableEq, Repr

/-- Modelled from the spec (§3 SigningKeySet): lookup of a key identifier
in the fetched key set. -/
def findKey (keys : List SigningKey) (kid : String) : Option SigningKey :=
  keys.find? (fun k => k.kid = kid)

/-- Modelled from the spec (§4.2 step 4): abstract stand-in for the
RS256-class signature computation over a token's header and payload under
given key material. The verifier recomputes this value and compares it with
the token's signature; any concrete injective-enough encoding serves. -/
def signWith (material : Nat) (h : TokenHeader) (p : Claims) : Nat :=
  1000003 * material + 31 * p.iss.length + 61 * p.aud.length + 127 * p.exp
    + h.alg.length
    + (match p.permissions with
       | none => 0
       | some ps => 9973 * (ps.length + 1))

/-- Whether `pre` is a leading substring of `s`, computed on the
underlying character lists. -/
def strStartsWith (s pre : String) : Bool :=
  pre.data.isPrefixOf s.data

/-- Split a character list on spaces, dropping empty fragments; `acc`
holds the characters of the current fragment in reverse. -/
def splitPartsAux : List Char → List Char → List String
  | [], acc => if acc = [] then [] else [String.mk acc.reverse]
  | c :: cs, acc =>
      if c = ' ' then
        if acc = [] then splitPartsAux cs []
        else String.mk acc.reverse :: splitPartsAux cs []
      else splitPartsAux cs (c :: acc)

/-- Modelled from the spec (§4.2 step 1): split the `Authorization` header
value into space-separated parts, dropping empty fragments (the behaviour
of Python's `str.split()`). -/
def splitParts (s : String) : List String :=
  splitPartsAux s.data []

/-- Modelled from the spec (§4.2 step 1): extract the raw token from the
`Authorization` header. Reject if the header is absent (`missing_header`),
does not start with the literal scheme `Bearer `, has more than two
space-separated parts, or has zero parts after the scheme (each
`malformed_header`). -/
def extractToken (header : Option String) : Except AuthError String :=
  match header with
  | none =>
      .error { code := .missing_header
             , description := "Authorization header is expected"
             , status_code := 401 }
  | some auth =>
      if strStartsWith auth "Bearer " then
        if (splitParts auth).length > 2 then
          .error { code := .malformed_header
                 , description := "Authorization header must be a single bearer token"
                 , status_code := 401 }
        else
          match splitParts auth with
          | _ :: tok :: _ => .ok tok
          | _ =>
              .error { code := .malformed_header
                     , description := "Token not found"
                     , status_code := 401 }
      else
        .error { code := .malformed_header
               , description := "Authorization header must start with Bearer"
               , status_code := 401 }

/-- Modelled from the spec (§4.2 steps 2–6): verify a structurally decoded
token against the key set, the current time and the configured issuer and
audience. Key-id extraction, key lookup, signature verification and claim
checks happen in that order; the claims-invalid condition is sub-classified
into `token_expired` (current time not strictly before `exp`) and
`invalid_claims` (issuer or audience mismatch). -/
def verifyToken (keys : List SigningKey) (now : Nat) (iss aud : String)
    (t : Jwt) : Except AuthError Claims :=
  match t.header.kid with
  | none =>
      .error { code := .invalid_header
             , description := "Authorization malformed: kid missing"
             , status_code := 401 }
  | some kid =>
      match findKey keys kid with
      | none =>
          .error { code := .unknown_key
                 , description := "Unable to find the appropriate key"
                 , status_code := 401 }
      | some key =>
          if t.sig = signWith key.material t.header t.payload then
            if now < t.payload.exp then
              if t.payload.iss = iss ∧ t.payload.aud = aud then
                .ok t.payload
              else
                .error { code := .invalid_claims
                       , description := "Incorrect claims. Please check the audience and issuer"
                       , status_code := 401 }
            else
              .error { code := .token_expired
                     , description := "Token expired"
                     , status_code := 401 }
          else
            .error { code := .invalid_signature
                   , description := "Signature verification failed"
                   , status_code := 401 }

/-- Modelled from the spec (§4.3 Permission Enforcer): fail with
`unauthorized` when the claims mapping has no permissions collection, with
`forbidden` when the collection lacks the required permission under exact,
case-sensitive string comparison, and succeed otherwise. -/
def authorize (claims : Claims) (required : String) : Except AuthError Unit :=
  match claims.permissions with
  | none =>
      .error { code := .unauthorized
             , description := "Permissions not included in JWT"
             , status_code := 401 }
  | some perms =>
      if required ∈ perms then
        .ok ()
      else
        .error { code := .forbidden
               , description := "Permission not found"
               , status_code := 401 }

/-- Modelled from the spec (§4.2, §9): the environment the verifier runs
in — the fetched signing-key set, the current time, the configured issuer
and audience, and the structural base64 decoder taking a raw compact token
string to its decoded form (`none` when undecodable). -/
structure AuthEnv where
  keys : List SigningKey
  now : Nat
  issuer : String
  audience : String
  decode : String → Option Jwt

/-- Modelled from the spec (§4.2): full verification of a raw token string,
decoding it structurally (an undecodable token is `invalid_header`) and then
running signature and claim verification. -/
def verifyRaw (env : AuthEnv) (raw : String) : Except AuthError Claims :=
  match env.decode raw with
  | none =>
      .error { code := .invalid_header
             , description := "Unable to parse authentication token"
             , status_code := 401 }
  | some jwt => verifyToken env.keys env.now env.issuer env.audience jwt

/-- Modelled from the spec (§4.4 Authorization Gate): wraps a protected
operation with a required permission — extract the raw token from the
request's `Authorization` header, run the Verifier, run the Enforcer with
the required permission, and only if both succeed invoke the wrapped
operation, passing it the VerifiedClaims. Any failure propagates
unmodified. -/
def requires_auth {α : Type} (env : AuthEnv) (required : String)
    (handler : Claims → α) (authHeader : Option String) :
    Except AuthError α :=
  match extractToken authHeader with
  | .error e => .error e
  | .ok raw =>
      match verifyRaw env raw with
      | .error e => .error e
      | .ok claims =>
          match authorize claims required with
          | .error e => .error e
          | .ok _ => .ok (handler claims)

/-- Running the verifier twice on the same raw token in the same
environment (same key set, same current time), as in the spec's idempotence
property. -/
def verify_twice (env : AuthEnv) (raw : String) :
    Except AuthError Claims × Except AuthError Claims :=
  (verifyRaw env raw, verifyRaw env raw)

/-- From `app.py`: the JSON error envelope produced by the error handlers —
`{"success": ..., "error": ..., "message": ...}`. -/
structure JsonResponse where
  success : Bool
  error : Nat
  message : String
deriving DecidableEq, Repr

/-- From `app.py` (`auth_error`, lines 609–615): the `AuthError` handler
returns `jsonify({"success": False, "error": error.status_code,
"message": error.error['description']})` with HTTP status
`error.status_code`. -/
def auth_error (e : AuthError) : JsonResponse × Nat :=
  ({ success := false, error := e.status_code, message := e.description },
   e.status_code)

/-- From `app.py` (`not_found`, lines 574–579): the 404 handler. -/
def not_found : JsonResponse × Nat :=
  ({ success := false, error := 404, message := "resource not found" }, 404)

/-- From `app.py` (`bad_request`, lines 581–586): the 400 handler. -/
def bad_request : JsonResponse × Nat :=
  ({ success := false, error := 400, message := "bad request" }, 400)

/-- From `app.py` (`unprocessable`, lines 566–572): the 422 handler. -/
def unprocessable : JsonResponse × Nat :=
  ({ success := false, error := 422, message := "unprocessable" }, 422)

/-- From `app.py` (`not_allowed`, lines 588–593): the 405 handler. -/
def not_allowed : JsonResponse × Nat :=
  ({ success := false, error := 405, message := "method not alllowed" }, 405)

/-- From `app.py` (`internal_server_error`, lines 595–600): the 500
handler. -/
def internal_server_error : JsonResponse × Nat :=
  ({ success := false, error := 500, message := "500 Internal Server Error" }, 500)

/-- From `app.py` (`not_athorized`, lines 602–607): the 401 handler. -/
def not_athorized : JsonResponse × Nat :=
  ({ success := false, error := 401, message := "Unathorized" }, 401)

/-- From `app.py`: dispatch of a Flask `abort(code)` to the registered
error handler for that code. -/
def abortResponse (code : Nat) : JsonResponse × Nat :=
  if code = 400 then bad_request
  else if code = 404 then not_found
  else if code = 405 then not_allowed
  else if code = 422 then unprocessable
  else if code = 401 then not_athorized
  else internal_server_error

/-- An ORM `Actor` row. `models.py` is not in the sources; the fields are
those `app.py` reads and writes: `id`, `name`, `age`, `gender`. -/
structure Actor where
  id : Nat
  name : String
  age : String
  gender : String
deriving DecidableEq, Repr

/-- An ORM `Movie` row. `models.py` is not in the sources; the fields are
those `app.py` reads and writes: `id`, `title`, `release`. -/
structure Movie where
  id : Nat
  title : String
  release : String
deriving DecidableEq, Repr

/-- From `app.py` (`fetch_actors`): the per-actor JSON dict
`{'id', 'name', 'age', 'gender'}`. `Actor.format()` in the absent
`models.py` is taken to produce the same fields. -/
structure ActorJson where
  id : Nat
  name : String
  age : String
  gender : String
deriving DecidableEq, Repr

/-- From `app.py` (`fetch_movies`): the per-movie JSON dict
`{'id', 'title', 'release'}`. `Movie.format()` in the absent `models.py`
is taken to produce the same fields. -/
structure MovieJson where
  id : Nat
  title : String
  release : String
deriving DecidableEq, Repr

def Actor.format (a : Actor) : ActorJson :=
  { id := a.id, name := a.name, age := a.age, gender := a.gender }

def Movie.format (m : Movie) : MovieJson :=
  { id := m.id, title := m.title, release := m.release }

/-- A fresh primary key for an insert: one more than the largest id in the
table (the autoincrement behaviour of the absent persistence layer). -/
def nextMovieId (db : List Movie) : Nat :=
  (db.map Movie.id).foldr max 0 + 1

/-- From `app.py` (`fetch_actors`, lines 138–152): abort 404 when the table
is empty, otherwise return `{'success': True, 'actors': [...]}`. -/
def fetch_actors (payload : Claims) (db : List Actor) :
    Except Nat (Bool × List ActorJson) :=
  if db.length = 0 then .error 404
  else .ok (true, db.map Actor.format)

/-- From `app.py` (`fetch_movies`, lines 373–386): abort 404 when the table
is empty, otherwise return `{'success': True, 'movies': [...]}`. -/
def fetch_movies (payload : Claims) (db : List Movie) :
    Except Nat (Bool × List MovieJson) :=
  if db.length = 0 then .error 404
  else .ok (true, db.map Movie.format)

/-- The JSON body of a POST/PATCH actor request; `data.get(k)` yields
`none` for a missing key. -/
structure ActorBody where
  name : Option String
  age : Option String
  gender : Option String
deriving DecidableEq, Repr

/-- The JSON body of a POST/PATCH movie request; `data.get(k)` yields
`none` for a missing key. -/
structure MovieBody where
  title : Option String
  release : Option String
deriving DecidableEq, Repr

/-- From `app.py` (`create_movie`, lines 428–490): abort 400 when `title`
or `release` is missing from the body, otherwise insert the movie and
return `{'success': True, 'movie': movie.format()}`. The result pairs the
new table state with the outcome. -/
def create_movie (payload : Claims) (data : MovieBody) (db : List Movie) :
    List Movie × Except Nat (Bool × MovieJson) :=
  match data.title, data.release with
  | some t, some r =>
      let m : Movie := { id := nextMovieId db, title := t, release := r }
      (db ++ [m], .ok (true, m.format))
  | _, _ => (db, .error 400)

/-- From `app.py` (`update_actor`, lines 286–299): abort 400 when `name`,
`age` or `gender` is missing from the body; only then look the actor up by
id and abort 404 when absent; otherwise overwrite the three fields. -/
def update_actor (data : ActorBody) (id : Nat) (db : List Actor) :
    List Actor × Except Nat (Bool × ActorJson) :=
  match data.name, data.age, data.gender with
  | some n, some a, some g =>
      match db.find? (fun x => x.id = id) with
      | none => (db, .error 404)
      | some actor =>
          let updated : Actor :=
            { id := actor.id, name := n, age := a, gender := g }
          (db.map (fun x => if x.id = id then updated else x),
           .ok (true, updated.format))
  | _, _, _ => (db, .error 400)

/-- From `app.py` (`update_movie`, lines 550–562): abort 400 when `title`
or `release` is missing from the body; only then look the movie up by id
and abort 404 when absent; otherwise overwrite the two fields. -/
def update_movie (data : MovieBody) (id : Nat) (db : List Movie) :
    List Movie × Except Nat (Bool × MovieJson) :=
  match data.title, data.release with
  | some t, some r =>
      match db.find? (fun x => x.id = id) with
      | none => (db, .error 404)
      | some movie =>
          let updated : Movie := { id := movie.id, title := t, release := r }
          (db.map (fun x => if x.id = id then updated else x),
           .ok (true, updated.format))
  | _, _ => (db, .error 400)

/-- The boundary outcome of an HTTP route: either the handler's success
JSON or the error envelope produced by the registered error handler. -/
inductive HttpResult (α : Type) where
  | ok : α → HttpResult α
  | err : JsonResponse → Nat → HttpResult α
deriving DecidableEq, Repr

/-- Translate a handler outcome (success or `abort(code)`) through the
error handlers of `app.py`. -/
def runHandler {α : Type} (r : Except Nat α) : HttpResult α :=
  match r with
  | .ok a => .ok a
  | .error code =>
      match abortResponse code with
      | (body, status) => .err body status

/-- The `GET /actors` route past authorization: `fetch_actors` composed
with the boundary error translation. -/
def fetch_actors_route (payload : Claims) (db : List Actor) :
    HttpResult (Bool × List ActorJson) :=
  runHandler (fetch_actors payload db)

/-- The `GET /movies` route past authorization: `fetch_movies` composed
with the boundary error translation. -/
def fetch_movies_route (payload : Claims) (db : List Movie) :
    HttpResult (Bool × List MovieJson) :=
  runHandler (fetch_movies payload db)

/-- From `app.py` (`create_movie` with its `@requires_auth('post:movie')`
decorator, lines 428–430): the whole protected `POST /movies` route. The
table state passes through unchanged whenever the gate rejects the request,
since the handler body is the only code that touches it. -/
def create_movie_route (env : AuthEnv) (authHeader : Option String)
    (data : MovieBody) (db : List Movie) :
    List Movie × Except AuthError (Except Nat (Bool × MovieJson)) :=
  match requires_auth env "post:movie"
      (fun payload => create_movie payload data db) authHeader with
  | .error e => (db, .error e)
  | .ok (db2, r) => (db2, .ok r)

/-! ## Theorems -/

/-- C1: a protected operation's body never executes unless a VerifiedClaims
value was produced by the full validation chain — token extraction,
signature/claim verification and permission membership — for that same
request: a successful gate result is exactly the handler applied to the
claims that the chain produced, and on any failure of the chain the result
does not depend on the handler at all (the body is not invoked). -/
theorem requires_auth_gate {α : Type} (env : AuthEnv) (required : String)
    (f g : Claims → α) (h : Option String) :
    (∀ v, requires_auth env required f h = Except.ok v →
      ∃ raw claims, extractToken h = Except.ok raw ∧
        verifyRaw env raw = Except.ok claims ∧
        authorize claims required = Except.ok () ∧ v = f claims) ∧
    (∀ e, requires_auth env required f h = Except.error e →
      requires_auth env required g h = Except.error e) := by
  cases hx : extractToken h with
  | error e0 =>
      refine ⟨fun v hok => ?_, fun e herr => ?_⟩
      · simp only [requires_auth, hx] at hok
        exact Except.noConfusion hok
      · simp only [requires_auth, hx] at herr ⊢
        exact herr
  | ok raw =>
      cases hv : verifyRaw env raw with
      | error e0 =>
          refine ⟨fun v hok => ?_, fun e herr => ?_⟩
          · simp only [requires_auth, hx, hv] at hok
            exact Except.noConfusion hok
          · simp only [requires_auth, hx, hv] at herr ⊢
            exact herr
      | ok claims =>
          cases ha : authorize claims required with
          | error e0 =>
              refine ⟨fun v hok => ?_, fun e herr => ?_⟩
              · simp only [requires_auth, hx, hv, ha] at hok
                exact Except.noConfusion hok
              · simp only [requires_auth, hx, hv, ha] at herr ⊢
                exact herr
          | ok u =>
              refine ⟨fun v hok => ?_, fun e herr => ?_⟩
              · simp only [requires_auth, hx, hv, ha] at hok
                exact ⟨raw, claims, rfl, hv, by cases u; exact ha,
                  (Except.ok.inj hok).symm⟩
              · simp only [requires_auth, hx, hv, ha] at herr
                exact Except.noConfusion herr

/-- C2: every authorization-domain failure escaping the gate carries HTTP
status 401 — including `forbidden` — and the `auth_error` boundary handler
renders it as the envelope `{"success": false, "error": 401,
"message": <description>}` with HTTP status 401. -/
theorem auth_error_contract (env : AuthEnv) (required : String)
    {α : Type} (f : Claims → α) (h : Option String) (e : AuthError) :
    requires_auth env required f h = Except.error e →
    e.status_code = 401 ∧
      auth_error e =
        ({ success := false, error := 401, message := e.description }, 401) := by
  intro herr
  have hstatus : e.status_code = 401 := by
    cases hx : extractToken h with
    | error e0 =>
        simp only [requires_auth, hx] at herr
        cases hh : h with
        | none =>
            subst hh
            simp only [extractToken] at hx
            cases hx
            cases herr
            rfl
        | some auth =>
            subst hh
            simp only [extractToken] at hx
            split at hx
            · split at hx
              · cases hx; cases herr; rfl
              · split at hx
                · cases hx
                · cases hx; cases herr; rfl
            · cases hx; cases herr; rfl
    | ok raw =>
        cases hv : verifyRaw env raw with
        | error e0 =>
            simp only [requires_auth, hx, hv] at herr
            simp only [verifyRaw] at hv
            split at hv
            · cases hv; cases herr; rfl
            next jwt hjwt =>
              simp only [verifyToken] at hv
              split at hv
              · cases hv; cases herr; rfl
              next kid hkid =>
                split at hv
                · cases hv; cases herr; rfl
                next key hkey =>
                  split at hv
                  · split at hv
                    · split at hv
                      · cases hv
                      · cases hv; cases herr; rfl
                    · cases hv; cases herr; rfl
                  · cases hv; cases herr; rfl
        | ok claims =>
            cases ha : authorize claims required with
            | error e0 =>
                simp only [requires_auth, hx, hv, ha] at herr
                simp only [authorize] at ha
                split at ha
                · cases ha; cases herr; rfl
                next perms hperms =>
                  split at ha
                  · cases ha
                  · cases ha; cases herr; rfl
            | ok u =>
                simp only [requires_auth, hx, hv, ha] at herr
                exact Except.noConfusion herr
  exact ⟨hstatus, by simp [auth_error, hstatus]⟩

/-- C3: a request with no `Authorization` header is rejected by the gate
with code `missing_header` and HTTP 401; a request whose header is present
but not exactly `Bearer <single-token>` — it does not start with the scheme
`Bearer `, or has more than two space-separated parts, or has zero parts
after the scheme — is rejected with code `malformed_header` and HTTP 401;
and the two codes are distinct. -/
theorem header_extraction_errors {α : Type} (env : AuthEnv)
    (required : String) (f : Claims → α) (h : Option String) :
    (h = none →
      ∃ e, requires_auth env required f h = Except.error e ∧
        e.code = AuthCode.missing_header ∧ e.status_code = 401) ∧
    (∀ s, h = some s →
      (strStartsWith s "Bearer " = false ∨ (splitParts s).length > 2 ∨
        (splitParts s).length < 2) →
      ∃ e, requires_auth env required f h = Except.error e ∧
        e.code = AuthCode.malformed_header ∧ e.status_code = 401) ∧
    AuthCode.missing_header ≠ AuthCode.malformed_header := by
  refine ⟨?_, ?_, by decide⟩
  · rintro rfl
    exact ⟨_, rfl, rfl, rfl⟩
  · rintro s rfl hbad
    simp only [requires_auth, extractToken]
    by_cases hpre : strStartsWith s "Bearer " = true
    · simp only [hpre, if_true]
      by_cases hlen : (splitParts s).length > 2
      · simp only [if_pos hlen]
        exact ⟨_, rfl, rfl, rfl⟩
      · simp only [if_neg hlen]
        have hshort : (splitParts s).length < 2 := by
          rcases hbad with hb | hb | hb
          · rw [hb] at hpre
            exact Bool.noConfusion hpre
          · exact absurd hb hlen
          · exact hb
        match hsp : splitParts s with
        | [] => exact ⟨_, rfl, rfl, rfl⟩
        | [_] => exact ⟨_, rfl, rfl, rfl⟩
        | _ :: _ :: _ =>
            rw [hsp] at hshort
            simp only [List.length_cons] at hshort
            omega
    · simp only [hpre, if_false]
      exact ⟨_, rfl, rfl, rfl⟩

/-- C4: `authorize` fails with `unauthorized` whenever the claims carry no
permissions collection, regardless of the required permission; fails with
`forbidden` when the collection exists but lacks the required string under
exact case-sensitive comparison; succeeds when the string is present; and
for a permissions set `{"view:actors"}`, `view:actors` is granted while
`delete:actor` is `forbidden`. -/
theorem authorize_spec (c : Claims) (required : String) :
    (c.permissions = none →
      ∃ e, authorize c required = Except.error e ∧
        e.code = AuthCode.unauthorized) ∧
    (∀ ps, c.permissions = some ps → required ∉ ps →
      ∃ e, authorize c required = Except.error e ∧
        e.code = AuthCode.forbidden) ∧
    (∀ ps, c.permissions = some ps → required ∈ ps →
      authorize c required = Except.ok ()) ∧
    (c.permissions = some ["view:actors"] →
      authorize c "view:actors" = Except.ok () ∧
      ∃ e, authorize c "delete:actor" = Except.error e ∧
        e.code = AuthCode.forbidden) := by
  refine ⟨?_, ?_, ?_, ?_⟩
  · intro hnone
    simp only [authorize, hnone]
    exact ⟨_, rfl, rfl⟩
  · intro ps hps hmem
    simp only [authorize, hps, if_neg hmem]
    exact ⟨_, rfl, rfl⟩
  · intro ps hps hmem
    simp only [authorize, hps, if_pos hmem]
  · intro hps
    constructor
    · simp only [authorize, hps]
      norm_num
    · simp only [authorize, hps]
      norm_num
      exact ⟨_, rfl, rfl⟩

/-- C5: for a syntactically and cryptographically valid token (key id
present, key resolved, signature verified), an `exp` claim not strictly in
the future fails with `token_expired` / 401, while an unexpired token whose
issuer or audience does not match the configuration fails with
`invalid_claims` / 401; the two codes are distinct. -/
theorem claims_validation_errors (keys : List SigningKey) (now : Nat)
    (iss aud : String) (t : Jwt) (kid : String) (key : SigningKey) :
    t.header.kid = some kid →
    findKey keys kid = some key →
    t.sig = signWith key.material t.header t.payload →
    ((t.payload.exp ≤ now →
        ∃ e, verifyToken keys now iss aud t = Except.error e ∧
          e.code = AuthCode.token_expired ∧ e.status_code = 401) ∧
      (now < t.payload.exp →
        (t.payload.iss ≠ iss ∨ t.payload.aud ≠ aud) →
        ∃ e, verifyToken keys now iss aud t = Except.error e ∧
          e.code = AuthCode.invalid_claims ∧ e.status_code = 401) ∧
      AuthCode.token_expired ≠ AuthCode.invalid_claims) := by
  intro hkid hkey hsig
  refine ⟨?_, ?_, by decide⟩
  · intro hexp
    have hnow : ¬ now < t.payload.exp := by omega
    simp only [verifyToken, hkid, hkey, if_pos hsig, if_neg hnow]
    exact ⟨_, rfl, rfl, rfl⟩
  · intro hlt hbad
    have hcond : ¬ (t.payload.iss = iss ∧ t.payload.aud = aud) := by
      rintro ⟨h1, h2⟩
      rcases hbad with hb | hb
      exacts [hb h1, hb h2]
    simp only [verifyToken, hkid, hkey, if_pos hsig, if_pos hlt,
      if_neg hcond]
    exact ⟨_, rfl, rfl, rfl⟩

/-- C6: a token whose key identifier is absent from the signing-key set
fails with `unknown_key` / 401 whatever its signature — the key lookup of
step 3 precedes the signature check of step 4 — and a token whose key
resolves but whose signature does not recompute fails with
`invalid_signature` / 401 whatever its claims. -/
theorem key_resolution_errors (keys : List SigningKey) (now : Nat)
    (iss aud : String) (t : Jwt) (kid : String) :
    t.header.kid = some kid →
    ((findKey keys kid = none →
        ∃ e, verifyToken keys now iss aud t = Except.error e ∧
          e.code = AuthCode.unknown_key ∧ e.status_code = 401) ∧
      (∀ key, findKey keys kid = some key →
        t.sig ≠ signWith key.material t.header t.payload →
        ∃ e, verifyToken keys now iss aud t = Except.error e ∧
          e.code = AuthCode.invalid_signature ∧ e.status_code = 401)) := by
  intro hkid
  constructor
  · intro hnone
    simp only [verifyToken, hkid, hnone]
    exact ⟨_, rfl, rfl, rfl⟩
  · intro key hkey hsig
    simp only [verifyToken, hkid, hkey, if_neg hsig]
    exact ⟨_, rfl, rfl, rfl⟩

/-- C8: verification is deterministic and idempotent — running the
verifier twice on the same raw token against the same key set and current
time yields the same VerifiedClaims both times. -/
theorem verify_twice_idempotent (env : AuthEnv) (raw : String)
    (c : Claims) :
    (verify_twice env raw).1 = Except.ok c →
    (verify_twice env raw).2 = Except.ok c ∧
      (verify_twice env raw).1 = (verify_twice env raw).2 :=
  fun h => ⟨h, rfl⟩

/-! ## Concrete fixtures for the witnesses and the end-to-end scenario -/

/-- A concrete published signing key. -/
def demoKey : SigningKey := { kid := "k1", material := 42 }

/-- A concrete structural JWT header naming `demoKey`. -/
def demoHeader : TokenHeader := { kid := some "k1", alg := "RS256" }

/-- Concrete claims matching the configured issuer and audience, unexpired
at time 50, carrying the `post:movie` permission. -/
def demoClaims : Claims :=
  { iss := "https://example.auth0.com/"
  , aud := "capstone"
  , exp := 100
  , permissions := some ["post:movie"] }

/-- The correctly signed token over `demoHeader` and `demoClaims`. -/
def demoJwt : Jwt :=
  { header := demoHeader
  , payload := demoClaims
  , sig := signWith demoKey.material demoHeader demoClaims }

/-- A concrete verification environment: `demoKey` published, current time
50, and a decoder recognising the raw string of `demoJwt`. -/
def demoEnv : AuthEnv :=
  { keys := [demoKey]
  , now := 50
  , issuer := "https://example.auth0.com/"
  , audience := "capstone"
  , decode := fun s => if s = "good.jwt.token" then some demoJwt else none }

/-- Claims whose audience differs from the configured one. -/
def wrongAudClaims : Claims :=
  { iss := "https://example.auth0.com/"
  , aud := "someone-else"
  , exp := 100
  , permissions := some ["post:movie"] }

/-- A correctly signed token over the wrong-audience claims. -/
def wrongAudJwt : Jwt :=
  { header := demoHeader
  , payload := wrongAudClaims
  , sig := signWith demoKey.material demoHeader wrongAudClaims }

/-- A token naming a key id that is not in the published key set. -/
def rotatedKeyJwt : Jwt :=
  { header := { kid := some "k9", alg := "RS256" }
  , payload := demoClaims
  , sig := signWith demoKey.material demoHeader demoClaims }

/-- A token naming `demoKey` whose signature does not recompute. -/
def badSigJwt : Jwt :=
  { header := demoHeader
  , payload := demoClaims
  , sig := signWith demoKey.material demoHeader demoClaims + 1 }

/-- Claims carrying no permissions collection at all. -/
def noPermClaims : Claims :=
  { iss := "https://example.auth0.com/"
  , aud := "capstone"
  , exp := 100
  , permissions := none }

/-- Claims whose permissions set is exactly `{"view:actors"}`. -/
def viewActorsClaims : Claims :=
  { iss := "https://example.auth0.com/"
  , aud := "capstone"
  , exp := 100
  , permissions := some ["view:actors"] }

/-- The `forbidden` failure the enforcer raises. -/
def forbiddenAuthError : AuthError :=
  { code := .forbidden
  , description := "Permission not found"
  , status_code := 401 }

/-- A concrete stored actor row. -/
def demoActor : Actor :=
  { id := 1, name := "Steven Wilson", age := "30", gender := "Male" }

/-- A concrete stored movie row. -/
def demoMovie : Movie := { id := 1, title := "Parasite", release := "2019" }

/-- A complete actor PATCH body. -/
def fullActorBody : ActorBody :=
  { name := some "New Name", age := some "40", gender := some "Female" }

/-- A complete movie PATCH body. -/
def fullMovieBody : MovieBody :=
  { title := some "Dune", release := some "2021" }

/-! ## Witnesses -/

/-- Witness for C1: on the request carrying the well-signed demo token the
gate succeeds and the chain facts hold at that request, and on the request
with no header the gate fails identically for two distinct handler
bodies. -/
theorem requires_auth_gate_witness :
    (∃ raw claims,
      extractToken (some "Bearer good.jwt.token") = Except.ok raw ∧
        verifyRaw demoEnv raw = Except.ok claims ∧
        authorize claims "post:movie" = Except.ok () ∧
        (100 : Nat) = claims.exp) ∧
    requires_auth demoEnv "post:movie" (fun c => c.exp + 1) none =
      Except.error { code := .missing_header
                   , description := "Authorization header is expected"
                   , status_code := 401 } :=
  ⟨(requires_auth_gate demoEnv "post:movie" (fun c => c.exp)
      (fun c => c.exp) (some "Bearer good.jwt.token")).1 100 (by decide),
   (requires_auth_gate demoEnv "post:movie" (fun c => c.exp)
      (fun c => c.exp + 1) none).2 _ (by decide)⟩

/-- Witness for C2: the `forbidden` failure — raised when the demo token
lacks `delete:movie` — carries status 401 and is rendered by `auth_error`
as the standard envelope. -/
theorem auth_error_contract_witness :
    forbiddenAuthError.status_code = 401 ∧
      auth_error forbiddenAuthError =
        ({ success := false, error := 401
         , message := forbiddenAuthError.description }, 401) :=
  auth_error_contract demoEnv "delete:movie" (fun c => c.exp)
    (some "Bearer good.jwt.token") forbiddenAuthError (by decide)

/-- Witness for C3: the headerless request fails with `missing_header`/401
and the request whose header does not start with `Bearer ` fails with
`malformed_header`/401. -/
theorem header_extraction_errors_witness :
    (∃ e, requires_auth demoEnv "post:movie" (fun c => c.exp) none =
        Except.error e ∧
      e.code = AuthCode.missing_header ∧ e.status_code = 401) ∧
    (∃ e, requires_auth demoEnv "post:movie" (fun c => c.exp)
        (some "Token abc") = Except.error e ∧
      e.code = AuthCode.malformed_header ∧ e.status_code = 401) :=
  ⟨(header_extraction_errors demoEnv "post:movie" (fun c => c.exp)
      none).1 rfl,
   (header_extraction_errors demoEnv "post:movie" (fun c => c.exp)
      (some "Token abc")).2.1 "Token abc" rfl (Or.inl (by decide))⟩

/-- Witness for C4: claims without a permissions collection are
`unauthorized` for `delete:actor`, and claims with permissions
`{"view:actors"}` are granted `view:actors` but `forbidden`
`delete:actor`. -/
theorem authorize_spec_witness :
    (∃ e, authorize noPermClaims "delete:actor" = Except.error e ∧
      e.code = AuthCode.unauthorized) ∧
    (authorize viewActorsClaims "view:actors" = Except.ok () ∧
      ∃ e, authorize viewActorsClaims "delete:actor" = Except.error e ∧
        e.code = AuthCode.forbidden) :=
  ⟨(authorize_spec noPermClaims "delete:actor").1 rfl,
   (authorize_spec viewActorsClaims "view:actors").2.2.2 rfl⟩

/-- Witness for C5: the demo token is `token_expired` at time 200 and the
wrong-audience token is `invalid_claims` at time 50. -/
theorem claims_validation_errors_witness :
    (∃ e, verifyToken [demoKey] 200 "https://example.auth0.com/"
        "capstone" demoJwt = Except.error e ∧
      e.code = AuthCode.token_expired ∧ e.status_code = 401) ∧
    (∃ e, verifyToken [demoKey] 50 "https://example.auth0.com/"
        "capstone" wrongAudJwt = Except.error e ∧
      e.code = AuthCode.invalid_claims ∧ e.status_code = 401) :=
  ⟨(claims_validation_errors [demoKey] 200 "https://example.auth0.com/"
      "capstone" demoJwt "k1" demoKey rfl (by decide) rfl).1 (by decide),
   (claims_validation_errors [demoKey] 50 "https://example.auth0.com/"
      "capstone" wrongAudJwt "k1" demoKey rfl (by decide) rfl).2.1
      (by decide) (Or.inr (by decide))⟩

/-- Witness for C6: the token naming rotated key `k9` is `unknown_key` and
the token with a corrupted signature is `invalid_signature`, with otherwise
well-formed claims in both. -/
theorem key_resolution_errors_witness :
    (∃ e, verifyToken [demoKey] 50 "https://example.auth0.com/"
        "capstone" rotatedKeyJwt = Except.error e ∧
      e.code = AuthCode.unknown_key ∧ e.status_code = 401) ∧
    (∃ e, verifyToken [demoKey] 50 "https://example.auth0.com/"
        "capstone" badSigJwt = Except.error e ∧
      e.code = AuthCode.invalid_signature ∧ e.status_code = 401) :=
  ⟨(key_resolution_errors [demoKey] 50 "https://example.auth0.com/"
      "capstone" rotatedKeyJwt "k9" rfl).1 (by decide),
   (key_resolution_errors [demoKey] 50 "https://example.auth0.com/"
      "capstone" badSigJwt "k1" rfl).2 demoKey (by decide) (by decide)⟩

/-- Witness for C8: the demo raw token verifies to `demoClaims` and doing
so twice gives identical results. -/
theorem verify_twice_idempotent_witness :
    (verify_twice demoEnv "good.jwt.token").2 = Except.ok demoClaims ∧
      (verify_twice demoEnv "good.jwt.token").1 =
        (verify_twice demoEnv "good.jwt.token").2 :=
  verify_twice_idempotent demoEnv "good.jwt.token" demoClaims (by decide)

/-- C7: end to end, the request carrying the correctly signed token with
permissions `["post:movie"]`, future `exp` and the configured issuer and
audience, with JSON body `{"title": "Dune", "release": "2021"}`, creates
the movie and returns the success response containing it; the identical
request with the `Authorization` header removed is rejected with
`missing_header` / 401 and the movie table stays empty. -/
theorem create_movie_end_to_end :
    create_movie_route demoEnv (some "Bearer good.jwt.token")
        { title := some "Dune", release := some "2021" } [] =
      ([{ id := 1, title := "Dune", release := "2021" }],
        Except.ok (Except.ok (true,
          { id := 1, title := "Dune", release := "2021" }))) ∧
    create_movie_route demoEnv none
        { title := some "Dune", release := some "2021" } [] =
      ([], Except.error { code := .missing_header
                        , description := "Authorization header is expected"
                        , status_code := 401 }) := by
  constructor <;> decide

/-- C9: past authorization, `GET /actors` and `GET /movies` answer an empty
table with the 404 envelope `{"success": false, "error": 404, "message":
"resource not found"}` rather than a success with an empty list, and answer
a non-empty table with the full formatted list under `"success": true`. -/
theorem fetch_empty_table_404 (payload : Claims)
    (adb : List Actor) (mdb : List Movie) :
    (adb = [] → fetch_actors_route payload adb =
      HttpResult.err
        { success := false, error := 404, message := "resource not found" }
        404) ∧
    (adb ≠ [] → fetch_actors_route payload adb =
      HttpResult.ok (true, adb.map Actor.format)) ∧
    (mdb = [] → fetch_movies_route payload mdb =
      HttpResult.err
        { success := false, error := 404, message := "resource not found" }
        404) ∧
    (mdb ≠ [] → fetch_movies_route payload mdb =
      HttpResult.ok (true, mdb.map Movie.format)) := by
  refine ⟨?_, ?_, ?_, ?_⟩
  · rintro rfl
    rfl
  · intro hne
    have hlen : ¬ adb.length = 0 := fun hl => hne (List.length_eq_zero.mp hl)
    simp only [fetch_actors_route, fetch_actors, if_neg hlen, runHandler]
  · rintro rfl
    rfl
  · intro hne
    have hlen : ¬ mdb.length = 0 := fun hl => hne (List.length_eq_zero.mp hl)
    simp only [fetch_movies_route, fetch_movies, if_neg hlen, runHandler]

/-- Witness for C9: the empty tables give the 404 envelope and the
one-row tables give the full lists. -/
theorem fetch_empty_table_404_witness :
    fetch_actors_route demoClaims [] =
      HttpResult.err
        { success := false, error := 404, message := "resource not found" }
        404 ∧
    fetch_actors_route demoClaims [demoActor] =
      HttpResult.ok (true, [demoActor].map Actor.format) ∧
    fetch_movies_route demoClaims [] =
      HttpResult.err
        { success := false, error := 404, message := "resource not found" }
        404 ∧
    fetch_movies_route demoClaims [demoMovie] =
      HttpResult.ok (true, [demoMovie].map Movie.format) :=
  ⟨(fetch_empty_table_404 demoClaims [] []).1 rfl,
   (fetch_empty_table_404 demoClaims [demoActor] []).2.1 (by decide),
   (fetch_empty_table_404 demoClaims [] []).2.2.1 rfl,
   (fetch_empty_table_404 demoClaims [] [demoMovie]).2.2.2 (by decide)⟩

/-- C10: in `PATCH /actors/<id>` and `PATCH /movies/<id>` the body
completeness check precedes the existence check — an incomplete body gives
400 whatever the table holds, 404 arises exactly when the body is complete
but no row has the id — and every failure leaves the stored rows
unchanged. -/
theorem update_body_check_precedes_existence
    (adata : ActorBody) (mdata : MovieBody) (id : Nat)
    (adb : List Actor) (mdb : List Movie) :
    ((adata.name = none ∨ adata.age = none ∨ adata.gender = none) →
      update_actor adata id adb = (adb, Except.error 400)) ∧
    (adata.name ≠ none → adata.age ≠ none → adata.gender ≠ none →
      (∀ a ∈ adb, a.id ≠ id) →
      update_actor adata id adb = (adb, Except.error 404)) ∧
    (∀ db2 c, update_actor adata id adb = (db2, Except.error c) →
      db2 = adb) ∧
    ((mdata.title = none ∨ mdata.release = none) →
      update_movie mdata id mdb = (mdb, Except.error 400)) ∧
    (mdata.title ≠ none → mdata.release ≠ none →
      (∀ m ∈ mdb, m.id ≠ id) →
      update_movie mdata id mdb = (mdb, Except.error 404)) ∧
    (∀ db2 c, update_movie mdata id mdb = (db2, Except.error c) →
      db2 = mdb) ∧
    (∀ db2, update_actor adata id adb = (db2, Except.error 404) →
      adata.name ≠ none ∧ adata.age ≠ none ∧ adata.gender ≠ none ∧
        ∀ a ∈ adb, a.id ≠ id) ∧
    (∀ db2, update_movie mdata id mdb = (db2, Except.error 404) →
      mdata.title ≠ none ∧ mdata.release ≠ none ∧
        ∀ m ∈ mdb, m.id ≠ id) := by
  obtain ⟨nm, ag, gd⟩ := adata
  obtain ⟨ti, re⟩ := mdata
  refine ⟨?_, ?_, ?_, ?_, ?_, ?_, ?_, ?_⟩
  · intro hbad
    rcases nm with _ | n
    · cases ag <;> cases gd <;> rfl
    rcases ag with _ | a
    · cases gd <;> rfl
    rcases gd with _ | g
    · rfl
    rcases hbad with hb | hb | hb <;> exact Option.noConfusion hb
  · intro hn ha hg hnone
    rcases nm with _ | n
    · exact absurd rfl hn
    rcases ag with _ | a
    · exact absurd rfl ha
    rcases gd with _ | g
    · exact absurd rfl hg
    have hfind : adb.find? (fun x => x.id = id) = none :=
      List.find?_eq_none.mpr (fun x hx => by simpa using hnone x hx)
    simp only [update_actor, hfind]
  · intro db2 c heq
    unfold update_actor at heq
    split at heq
    · split at heq
      · exact (congrArg Prod.fst heq).symm
      · exact Except.noConfusion (congrArg Prod.snd heq)
    · exact (congrArg Prod.fst heq).symm
  · intro hbad
    rcases ti with _ | t
    · cases re <;> rfl
    rcases re with _ | r
    · rfl
    rcases hbad with hb | hb <;> exact Option.noConfusion hb
  · intro ht hr hnone
    rcases ti with _ | t
    · exact absurd rfl ht
    rcases re with _ | r
    · exact absurd rfl hr
    have hfind : mdb.find? (fun x => x.id = id) = none :=
      List.find?_eq_none.mpr (fun x hx => by simpa using hnone x hx)
    simp only [update_movie, hfind]
  · intro db2 c heq
    unfold update_movie at heq
    split at heq
    · split at heq
      · exact (congrArg Prod.fst heq).symm
      · exact Except.noConfusion (congrArg Prod.snd heq)
    · exact (congrArg Prod.fst heq).symm
  · intro db2 heq
    rcases nm with _ | n
    · cases ag <;> cases gd <;>
        simp only [update_actor, Prod.mk.injEq, Except.error.injEq]
          at heq <;>
        exact absurd heq.2 (by decide)
    rcases ag with _ | a
    · cases gd <;>
        simp only [update_actor, Prod.mk.injEq, Except.error.injEq]
          at heq <;>
        exact absurd heq.2 (by decide)
    rcases gd with _ | g
    · simp only [update_actor, Prod.mk.injEq, Except.error.injEq] at heq
      exact absurd heq.2 (by decide)
    cases hf : adb.find? (fun x => x.id = id) with
    | none =>
        refine ⟨fun hc => Option.noConfusion hc,
          fun hc => Option.noConfusion hc,
          fun hc => Option.noConfusion hc, ?_⟩
        intro x hx
        have hnx := List.find?_eq_none.mp hf x hx
        simpa using hnx
    | some actor =>
        simp only [update_actor, hf] at heq
        rw [Prod.mk.injEq] at heq
        exact Except.noConfusion heq.2
  · intro db2 heq
    rcases ti with _ | t
    · cases re <;>
        simp only [update_movie, Prod.mk.injEq, Except.error.injEq]
          at heq <;>
        exact absurd heq.2 (by decide)
    rcases re with _ | r
    · simp only [update_movie, Prod.mk.injEq, Except.error.injEq] at heq
      exact absurd heq.2 (by decide)
    cases hf : mdb.find? (fun x => x.id = id) with
    | none =>
        refine ⟨fun hc => Option.noConfusion hc,
          fun hc => Option.noConfusion hc, ?_⟩
        intro x hx
        have hnx := List.find?_eq_none.mp hf x hx
        simpa using hnx
    | some movie =>
        simp only [update_movie, hf] at heq
        rw [Prod.mk.injEq] at heq
        exact Except.noConfusion heq.2

/-- Witness for C10: on a one-row table with id 1 and request id 7, the
incomplete bodies give 400, the complete bodies give 404 and imply that no
row has id 7, and the table is unchanged in each case. -/
theorem update_precedence_witness :
    update_actor { name := none, age := some "30", gender := some "Male" }
        7 [demoActor] = ([demoActor], Except.error 400) ∧
    update_actor fullActorBody 7 [demoActor] =
      ([demoActor], Except.error 404) ∧
    update_movie { title := none, release := some "2021" } 7 [demoMovie] =
      ([demoMovie], Except.error 400) ∧
    update_movie fullMovieBody 7 [demoMovie] =
      ([demoMovie], Except.error 404) ∧
    (fullActorBody.name ≠ none ∧ fullActorBody.age ≠ none ∧
      fullActorBody.gender ≠ none ∧ ∀ a ∈ [demoActor], a.id ≠ 7) ∧
    (fullMovieBody.title ≠ none ∧ fullMovieBody.release ≠ none ∧
      ∀ m ∈ [demoMovie], m.id ≠ 7) :=
  ⟨(update_body_check_precedes_existence
      { name := none, age := some "30", gender := some "Male" }
      fullMovieBody 7 [demoActor] [demoMovie]).1 (Or.inl rfl),
   (update_body_check_precedes_existence fullActorBody fullMovieBody 7
      [demoActor] [demoMovie]).2.1 (by decide) (by decide) (by decide)
      (by decide),
   (update_body_check_precedes_existence fullActorBody
      { title := none, release := some "2021" } 7 [demoActor]
      [demoMovie]).2.2.2.1 (Or.inl rfl),
   (update_body_check_precedes_existence fullActorBody fullMovieBody 7
      [demoActor] [demoMovie]).2.2.2.2.1 (by decide) (by decide)
      (by decide),
   (update_body_check_precedes_existence fullActorBody fullMovieBody 7
      [demoActor] [demoMovie]).2.2.2.2.2.2.1 [demoActor] (by decide),
   (update_body_check_precedes_existence fullActorBody fullMovieBody 7
      [demoActor] [demoMovie]).2.2.2.2.2.2.2 [demoMovie] (by decide)⟩

end Capstone
